import Mathlib

/-!
Verification of the CurateX-AI RAG module (`rag.py`).

Shallow embedding of the data model and operations of `rag.py`:
the hybrid retriever fusion (`HybridRetriever._retrieve`), the setup
orchestrator (`setup_news_rag`) and the context-aware question answering
function (`search_documents_with_context`), followed by theorems settling
the specification claims about them.

Python floats are modelled as rationals (`ℚ`): the fusion logic only uses
truthiness (`score` is falsy exactly when it is `None` or equal to `0.0`)
and ordering, both of which `Option ℚ` captures faithfully.
-/

namespace CurateX

/-- A retrieval result (`NodeWithScore` in the source): a node identity,
its payload and an optional relevance score.  `NodeWithScore` always has a
`score` attribute (possibly `None`), so the `hasattr(res, 'score')` guards
on line 70 of `rag.py` are always true and the replacement decision reduces
to the truthiness test of line 71. -/
structure Result where
  nodeId : Nat
  content : String
  score : Option ℚ
deriving DecidableEq, Repr

/-- Python truthiness of an optional float score: `None` and `0.0` are
falsy, every other value is truthy. -/
def scoreTruthy : Option ℚ → Bool
  | none => false
  | some x => decide (x ≠ 0)

/-- Line 71 of `rag.py`:
`res.score and (not unique_nodes[node_id].score or res.score > unique_nodes[node_id].score)`,
deciding whether the new result `new` replaces the stored result `old`.
Short-circuit evaluation means the `>` comparison only happens when both
scores are truthy (hence both present). -/
def shouldReplace (old new : Result) : Bool :=
  match new.score with
  | none => false
  | some ns =>
    if ns = 0 then false
    else
      match old.score with
      | none => true
      | some os => if os = 0 then true else decide (ns > os)

/-- One iteration of the dedup loop of `HybridRetriever._retrieve`
(lines 64-72): the `unique_nodes` Python dict is modelled as an
association list in key-insertion order (a Python dict iterates keys in
insertion order; updating the value of an existing key keeps its
position, a new key is appended at the end). -/
def updateUnique : List (Nat × Result) → Result → List (Nat × Result)
  | [], res => [(res.nodeId, res)]
  | (k, v) :: rest, res =>
    if k = res.nodeId then
      (if shouldReplace v res then (k, res) else (k, v)) :: rest
    else
      (k, v) :: updateUnique rest res

/-- Lines 62-75 of `rag.py`: fold the flat result list into `unique_nodes`
and return `list(unique_nodes.values())`. -/
def fuse (results : List Result) : List Result :=
  (results.foldl updateUnique []).map Prod.snd

/-- One strategy call `retriever.retrieve(query_bundle)`: either a result
list or a raised exception (its message). -/
abbrev StrategyOutcome := Except String (List Result)

/-- The contribution a single strategy makes to `all_results`: its results
on success, nothing when it raised (the `except` branch of lines 58-60
prints a warning and `continue`s). -/
def contribution : StrategyOutcome → List Result
  | Except.ok l => l
  | Except.error _ => []

/-- Lines 53-60 of `rag.py`: the accumulation loop building `all_results`
by `extend`ing with each non-failing strategy's results in order. -/
def collectResults (strategies : List StrategyOutcome) : List Result :=
  strategies.foldl (fun acc s => acc ++ contribution s) []

namespace HybridRetriever

/-- `HybridRetriever._retrieve` (lines 51-75): collect per-strategy
results, skipping failed strategies, then fuse by node identity.  The
codomain is a plain list: a strategy exception is consumed by the
`except` clause and never propagates. -/
def retrieve (strategies : List StrategyOutcome) : List Result :=
  fuse (collectResults strategies)

end HybridRetriever

/-! ## Setup orchestrator (`setup_news_rag`, lines 77-165) -/

/-- A vector store index: either deserialized from the `storage` directory
(line 100, tagged by what was stored) or built from chunked nodes
(line 133). -/
inductive VIndex where
  | loaded (tag : Nat)
  | builtFrom (ns : List String)
deriving DecidableEq, Repr

/-- A keyword table index: either deserialized from storage (line 101) or
built from chunked nodes (line 136). -/
inductive KIndex where
  | loaded (tag : Nat)
  | builtFrom (ns : List String)
deriving DecidableEq, Repr

/-- The hybrid query engine of lines 147-158: the three retrievers it is
built from (vector, keyword, BM25-over-nodes), each created with
`similarity_top_k=3`. -/
structure Engine where
  vectorRetriever : VIndex
  keywordRetriever : KIndex
  bm25Nodes : List String
deriving DecidableEq, Repr

/-- The module-level mutable state of `rag.py` (lines 39-43). -/
structure RagState where
  vector_index : Option VIndex
  keyword_index : Option KIndex
  nodes : Option (List String)
  hybrid_query_engine : Option Engine
deriving DecidableEq, Repr

/-- The fresh module state: all globals `None` (lines 39-42). -/
def initialState : RagState :=
  { vector_index := none, keyword_index := none, nodes := none,
    hybrid_query_engine := none }

/-- The environment a `setup_news_rag` call runs against: whether the data
directory exists, the file names it holds, the outcome of deserializing
the persisted indexes from the `storage` directory, and the outcome of
reading the documents.  The environment is read twice unchanged when the
code retries `SimpleDirectoryReader(...).load_data()` on line 117. -/
structure SetupEnv where
  dirExists : Bool
  files : List String
  loadStorage : Except String (Nat × Nat)
  readDocs : Except String (List String)

/-- Python `f.endswith('.txt')` (line 88): suffix test on the sequence of
code points of the file name. -/
def endswith (s suffix : String) : Bool := suffix.data.isSuffixOf s.data

/-- The outcome of one `setup_news_rag` call: its boolean return value,
the module state it leaves behind, and whether it persisted the vector and
keyword indexes to storage (lines 140-143). -/
structure SetupResult where
  ok : Bool
  state : RagState
  persisted : Bool
deriving DecidableEq, Repr

/-- Lines 145-161: build the three retrievers from the current indexes and
nodes, assemble the hybrid query engine and report success. -/
def finishSetup (st : RagState) (v : VIndex) (k : KIndex) (ns : List String)
    (persisted : Bool) : SetupResult :=
  { ok := true,
    state := { st with
      vector_index := some v, keyword_index := some k, nodes := some ns,
      hybrid_query_engine :=
        some { vectorRetriever := v, keywordRetriever := k, bm25Nodes := ns } },
    persisted := persisted }

/-- Lines 112-143, the `except` branch of the storage `try`: re-read the
documents (returning `False` if that fails), chunk them into nodes, build
the vector and keyword indexes from the nodes, persist both, then fall
through to retriever construction.  `st` carries any global assignments
already performed inside the failed `try` block. -/
def rebuildPath (parse : List String → List String) (env : SetupEnv)
    (st : RagState) : SetupResult :=
  match env.readDocs with
  | Except.error _ => { ok := false, state := st, persisted := false }
  | Except.ok docs =>
    let ns := parse docs
    finishSetup { st with nodes := some ns }
      (VIndex.builtFrom ns) (KIndex.builtFrom ns) ns true

/-- `setup_news_rag` (lines 77-165), parameterized by the node parser
`parse` (the `SimpleNodeParser` chunking, `chunk_size=1000`,
`chunk_overlap=200`, which lives in the llama-index library, not in this
repository).  Guards: missing directory (lines 83-85) and no `.txt` files
(lines 88-91) return `False` before touching any global.  Then the code
tries to deserialize both persisted indexes and re-read the documents for
BM25 (lines 97-110); any exception there falls into `rebuildPath`,
carrying the global assignments already made. -/
def setup_news_rag (parse : List String → List String) (env : SetupEnv)
    (st : RagState) : SetupResult :=
  if !env.dirExists then { ok := false, state := st, persisted := false }
  else
    let files := env.files.filter (fun f => endswith f ".txt")
    if files.isEmpty then { ok := false, state := st, persisted := false }
    else
      match env.loadStorage with
      | Except.ok (vtag, ktag) =>
        let st1 := { st with
          vector_index := some (VIndex.loaded vtag),
          keyword_index := some (KIndex.loaded ktag) }
        match env.readDocs with
        | Except.ok docs =>
          finishSetup st1 (VIndex.loaded vtag) (KIndex.loaded ktag)
            (parse docs) false
        | Except.error _ => rebuildPath parse env st1
      | Except.error _ => rebuildPath parse env st

/-! ## Question answering (`search_documents_with_context`, lines 167-204) -/

/-- A conversation turn, the dict
`{"user": query, "assistant": str(response)}` of lines 193-196. -/
structure Turn where
  user : String
  assistant : String
deriving DecidableEq, Repr

/-- Lines 175-188: the context-aware query string.  When the history is
non-empty, the last 4 turns (`conversation_history[-4:]`, which Lean's
truncated subtraction renders as `drop (length - 4)`) are formatted as
`User:`/`Assistant:` line pairs joined by `chr(10)`, wrapped in the
f-string of lines 179-186; when the history is empty the query is used
verbatim (line 188). -/
def contextPrompt (hist : List Turn) (query : String) : String :=
  if hist.isEmpty then query
  else
    let recent := hist.drop (hist.length - 4)
    let joined := String.intercalate "\n"
      (recent.map (fun h =>
        "User: " ++ h.user ++ "\n" ++ "Assistant: " ++ h.assistant))
    "\nPrevious conversation:\n" ++ joined ++
      "\n\nCurrent question: " ++ query ++
      "\n\nPlease answer the current question, considering the conversation context above.\n"

/-- Follows the spec's words for the context augmentation of §4.5 (the
refinement counterpart of `contextPrompt`, to be compared with it): the
last 4 turns — the most recent four, in chronological order, written here
as `(hist.reverse.take 4).reverse` — formatted as alternating
user/assistant lines, followed by the new question. -/
def specAugmentedQuery (hist : List Turn) (q : String) : String :=
  let lastFour := (hist.reverse.take 4).reverse
  let lines := String.intercalate "\n"
    (lastFour.map (fun h =>
      "User: " ++ h.user ++ "\n" ++ "Assistant: " ++ h.assistant))
  "\nPrevious conversation:\n" ++ lines ++
    "\n\nCurrent question: " ++ q ++
    "\n\nPlease answer the current question, considering the conversation context above.\n"

/-- Lines 192-200: append the new turn to the history, then evict the
oldest turn (`pop(0)`) when the length exceeds 10. -/
def updateHistory (hist : List Turn) (q a : String) : List Turn :=
  let h := hist ++ [{ user := q, assistant := a }]
  if 10 < h.length then h.drop 1 else h

/-- `search_documents_with_context` (lines 167-204).  The generative call
`hybrid_query_engine.aquery` is modelled by the oracle `complete`, which
either returns an answer string or raises (its message).  The function
returns the answer string handed to the caller together with the
conversation history it leaves behind.  When the engine is `None` it
returns the fixed sentinel of line 172 and touches nothing; when the
completion raises, the `except` branch of lines 203-204 returns the
synthetic error string without reaching the `append` of line 193. -/
def search_documents_with_context (engine : Option Engine)
    (complete : String → Except String String)
    (hist : List Turn) (query : String) : String × List Turn :=
  match engine with
  | none => ("RAG system not initialized. Please run setup_news_rag first.", hist)
  | some _ =>
    match complete (contextPrompt hist query) with
    | Except.ok r => (r, updateHistory hist query r)
    | Except.error e => ("Error searching documents: " ++ e, hist)

/-- `answer_news_question` (lines 206-212): delegates to
`search_documents_with_context`; its own `except` clause is dead in this
pure model because the delegate never raises. -/
def answer_news_question (engine : Option Engine)
    (complete : String → Except String String)
    (hist : List Turn) (question : String) : String × List Turn :=
  search_documents_with_context engine complete hist question

/-- A sequence of successful `answer` calls: fold the history update over
the (question, answer) turns obtained. -/
def answerFold (hist : List Turn) (ts : List Turn) : List Turn :=
  ts.foldl (fun h t => updateHistory h t.user t.assistant) hist

/-! ## Helper lemmas -/

theorem foldl_append_contribution (ss : List StrategyOutcome)
    (acc : List Result) :
    ss.foldl (fun a s => a ++ contribution s) acc
      = acc ++ (ss.map contribution).flatten := by
  induction ss generalizing acc with
  | nil => simp
  | cons s rest ih => simp [ih, List.append_assoc]

theorem collectResults_eq_flatten (ss : List StrategyOutcome) :
    collectResults ss = (ss.map contribution).flatten := by
  simp [collectResults, foldl_append_contribution]

theorem shouldReplace_of_eq_scores (old new : Result)
    (h : old.score = new.score) : shouldReplace old new = false := by
  cases hn : new.score with
  | none => simp [shouldReplace, hn]
  | some ns =>
    rw [hn] at h
    rcases eq_or_ne ns 0 with h0 | h0
    · simp [shouldReplace, hn, h0]
    · simp [shouldReplace, hn, h, h0, lt_irrefl]

/-! ## Claims -/

/-- C1 (counterexample): the fusion replacement rule is not
"replace only when the new score is strictly greater": Python truthiness
makes a stored score of `0.0` falsy, so a later result for the same node
with score `-1` (not strictly greater than `0`) still replaces the stored
result with score `0`. -/
theorem fusion_score_policy_counterexample :
    fuse [{ nodeId := 1, content := "a", score := some 0 },
          { nodeId := 1, content := "b", score := some (-1) }]
      = [{ nodeId := 1, content := "b", score := some (-1) }]
  ∧ ¬ ((0 : ℚ) < -1) := by decide

/-- C1 (amended): hybrid fusion keeps one result per node identity; when
the stored and the new score are both present and nonzero, the stored
result is replaced exactly when the new score is strictly greater; a new
result whose score is missing or `0` never replaces a stored entry; a
stored entry whose score is missing or `0` is replaced by any later result
with a nonzero score; a node returned with scores 0.8 and 0.6 keeps 0.8,
and a node returned by only one strategy keeps its sole score. -/
theorem fusion_score_policy :
    (∀ (old new : Result) (ns os : ℚ), new.score = some ns →
       old.score = some os → ns ≠ 0 → os ≠ 0 →
       (shouldReplace old new = true ↔ os < ns))
  ∧ (∀ old new : Result, new.score = none ∨ new.score = some 0 →
       shouldReplace old new = false)
  ∧ (∀ (old new : Result) (ns : ℚ), old.score = none ∨ old.score = some 0 →
       new.score = some ns → ns ≠ 0 → shouldReplace old new = true)
  ∧ (∀ a b : String,
       fuse [{ nodeId := 1, content := a, score := some (4/5) },
             { nodeId := 1, content := b, score := some (3/5) }]
         = [{ nodeId := 1, content := a, score := some (4/5) }])
  ∧ (∀ r : Result, fuse [r] = [r]) := by
  refine ⟨?_, ?_, ?_, ?_, ?_⟩
  · intro old new ns os hn ho hns hos
    simp [shouldReplace, hn, ho, hns, hos]
  · intro old new h
    rcases h with h | h <;> simp [shouldReplace, h]
  · intro old new ns hold hnew hns
    rcases hold with h | h <;> simp [shouldReplace, hnew, hns, h]
  · intro a b
    simp [fuse, updateUnique, shouldReplace]
    norm_num
  · intro r
    rfl

/-- C1 (witness): the amended replacement rule evaluated at concrete
results. -/
theorem fusion_score_policy_witness :
    (shouldReplace { nodeId := 1, content := "a", score := some 1 }
        { nodeId := 1, content := "b", score := some 2 } = true ↔ (1 : ℚ) < 2)
  ∧ shouldReplace { nodeId := 1, content := "a", score := some 1 }
      { nodeId := 1, content := "b", score := none } = false
  ∧ shouldReplace { nodeId := 1, content := "a", score := none }
      { nodeId := 1, content := "b", score := some 2 } = true :=
  ⟨fusion_score_policy.1 _ _ 2 1 rfl rfl (by decide) (by decide),
   fusion_score_policy.2.1 _ _ (Or.inl rfl),
   fusion_score_policy.2.2.1 _ _ 2 (Or.inl rfl) rfl (by decide)⟩

/-- C2: a strategy that raises contributes nothing to the fused output and
its exception never propagates: replacing a failing strategy by one that
returns no results leaves the hybrid retrieval unchanged, and with three
strategies of which one fails, the output is the fusion of the remaining
two strategy contributions, unchanged. -/
theorem hybrid_failure_tolerance :
    (∀ (pre post : List StrategyOutcome) (e : String),
       HybridRetriever.retrieve (pre ++ Except.error e :: post)
         = HybridRetriever.retrieve (pre ++ Except.ok [] :: post))
  ∧ (∀ (e : String) (l2 l3 : List Result),
       HybridRetriever.retrieve [Except.error e, Except.ok l2, Except.ok l3]
         = fuse (l2 ++ l3))
  ∧ (∀ (l1 : List Result) (e : String) (l3 : List Result),
       HybridRetriever.retrieve [Except.ok l1, Except.error e, Except.ok l3]
         = fuse (l1 ++ l3))
  ∧ (∀ (l1 l2 : List Result) (e : String),
       HybridRetriever.retrieve [Except.ok l1, Except.ok l2, Except.error e]
         = fuse (l1 ++ l2)) := by
  refine ⟨?_, ?_, ?_, ?_⟩ <;> intros <;>
    simp [HybridRetriever.retrieve, collectResults_eq_flatten, contribution]

/-- C3: the rolling conversation history is bounded by 10 turns: the
history update preserves the bound, a successful answer call updates the
history by appending exactly one (question, answer) turn (evicting the
single oldest when the length would exceed 10), and after 15 sequential
successful answer calls from an empty history exactly the 10 most recent
turns remain, the 5 oldest evicted in order. -/
theorem conversation_history_bounded :
    (∀ (hist : List Turn) (q a : String), hist.length ≤ 10 →
       (updateHistory hist q a).length ≤ 10)
  ∧ (∀ (engine : Engine) (complete : String → Except String String)
       (hist : List Turn) (q r : String),
       complete (contextPrompt hist q) = Except.ok r →
       (search_documents_with_context (some engine) complete hist q).2
         = updateHistory hist q r)
  ∧ (∀ t1 t2 t3 t4 t5 t6 t7 t8 t9 t10 t11 t12 t13 t14 t15 : Turn,
       answerFold []
           [t1, t2, t3, t4, t5, t6, t7, t8, t9, t10, t11, t12, t13, t14, t15]
         = [t6, t7, t8, t9, t10, t11, t12, t13, t14, t15]) := by
  refine ⟨?_, ?_, ?_⟩
  · intro hist q a h
    simp only [updateHistory]
    split <;> rename_i hc <;>
      simp only [List.length_drop, List.length_append, List.length_singleton]
        at hc ⊢ <;> omega
  · intro engine complete hist q r h
    simp [search_documents_with_context, h]
  · intros
    simp [answerFold, updateHistory]

/-- C3 (witness): the bound and the append behavior evaluated at concrete
inputs. -/
theorem conversation_history_bounded_witness :
    (updateHistory [] "q" "a").length ≤ 10
  ∧ (search_documents_with_context
        (some { vectorRetriever := VIndex.loaded 0,
                keywordRetriever := KIndex.loaded 0, bm25Nodes := [] })
        (fun _ => Except.ok "ans") [] "q").2
      = updateHistory [] "q" "ans" :=
  ⟨conversation_history_bounded.1 [] "q" "a" (by decide),
   conversation_history_bounded.2.1 _ _ [] "q" "ans" rfl⟩

/-- C4 (counterexample): when the completion call raises, the synthetic
error string is returned but NOT appended to the conversation history:
starting from an empty history, a failing call returns the error answer
and leaves the history empty, so no turn carrying that answer exists. -/
theorem failed_completion_not_appended_counterexample :
    search_documents_with_context
        (some { vectorRetriever := VIndex.loaded 0,
                keywordRetriever := KIndex.loaded 0, bm25Nodes := [] })
        (fun _ => Except.error "boom") [] "q"
      = ("Error searching documents: boom", [])
  ∧ ({ user := "q", assistant := "Error searching documents: boom" } : Turn) ∉
      (search_documents_with_context
        (some { vectorRetriever := VIndex.loaded 0,
                keywordRetriever := KIndex.loaded 0, bm25Nodes := [] })
        (fun _ => Except.error "boom") [] "q").2 := by decide

/-- C4 (amended): when the generative completion call inside answer
raises, the synthetic error string is returned to the caller and the
conversation history is left unchanged: a failed completion call
contributes no turn to history. -/
theorem failed_completion_not_appended (engine : Engine)
    (complete : String → Except String String) (hist : List Turn)
    (q e : String) (h : complete (contextPrompt hist q) = Except.error e) :
    search_documents_with_context (some engine) complete hist q
      = ("Error searching documents: " ++ e, hist) := by
  simp [search_documents_with_context, h]

/-- C4 (witness): the amended behavior evaluated at a concrete failing
completion. -/
theorem failed_completion_not_appended_witness :
    search_documents_with_context
        (some { vectorRetriever := VIndex.loaded 0,
                keywordRetriever := KIndex.loaded 0, bm25Nodes := [] })
        (fun _ => Except.error "down") [{ user := "x", assistant := "y" }] "q"
      = ("Error searching documents: down", [{ user := "x", assistant := "y" }]) :=
  failed_completion_not_appended _ _ [{ user := "x", assistant := "y" }]
    "q" "down" rfl

/-- C5 (counterexample): invoked before any successful setup, the
question-answering call does not fail with a typed error: it returns the
sentinel text through the ordinary string answer channel, and an
initialized engine whose completion produces that same text yields an
answer indistinguishable from it. -/
theorem uninitialized_plain_string_counterexample :
    (search_documents_with_context none (fun s => Except.ok s) [] "q").1
      = "RAG system not initialized. Please run setup_news_rag first."
  ∧ (search_documents_with_context
        (some { vectorRetriever := VIndex.loaded 0,
                keywordRetriever := KIndex.loaded 0, bm25Nodes := [] })
        (fun _ =>
          Except.ok "RAG system not initialized. Please run setup_news_rag first.")
        [] "q").1
      = "RAG system not initialized. Please run setup_news_rag first." :=
  ⟨rfl, rfl⟩

/-- C5 (amended): invoked before any successful setup (engine still
`None`), the question-answering call reports failure only as the fixed
sentinel string returned through the ordinary textual answer channel,
whatever the completion oracle and history are. -/
theorem uninitialized_plain_string :
    ∀ (complete : String → Except String String) (hist : List Turn)
      (q : String),
      (search_documents_with_context none complete hist q).1
        = "RAG system not initialized. Please run setup_news_rag first." :=
  fun _ _ _ => rfl

/-- C8: when a later result's score is exactly equal to the stored one's,
it never replaces the stored entry, so fusing two results with the same
node identity and equal scores retains the first reporter's result. -/
theorem fusion_equal_score_first_wins :
    (∀ old new : Result, old.score = new.score →
       shouldReplace old new = false)
  ∧ (∀ r1 r2 : Result, r1.nodeId = r2.nodeId → r1.score = r2.score →
       fuse [r1, r2] = [r1]) := by
  refine ⟨shouldReplace_of_eq_scores, ?_⟩
  intro r1 r2 hid hsc
  simp [fuse, updateUnique, hid, shouldReplace_of_eq_scores r1 r2 hsc]

/-- C8 (witness): two equal-scored results for the same node evaluated
concretely: the first reporter is retained. -/
theorem fusion_equal_score_first_wins_witness :
    fuse [{ nodeId := 1, content := "a", score := some 1 },
          { nodeId := 1, content := "b", score := some 1 }]
      = [{ nodeId := 1, content := "a", score := some 1 }] :=
  fusion_equal_score_first_wins.2 _ _ rfl rfl

/-- C6: setup follows a two-path state machine.  When deserializing the
persisted indexes succeeds (and the documents load), the vector and
keyword indexes are the loaded ones — their build step is skipped — only
the BM25 side is recreated from freshly chunked nodes, and nothing is
persisted; when deserialization fails, all three are rebuilt from the
chunked node set and the vector and keyword indexes are persisted.  Both
paths end with the hybrid engine holding all three retrievers and setup
reporting success. -/
theorem setup_two_path_state_machine
    (parse : List String → List String) (env : SetupEnv) (st : RagState)
    (hdir : env.dirExists = true)
    (hfiles : (env.files.filter (fun f => endswith f ".txt")).isEmpty
        = false) :
    (∀ (vtag ktag : Nat) (docs : List String),
       env.loadStorage = Except.ok (vtag, ktag) →
       env.readDocs = Except.ok docs →
       (setup_news_rag parse env st).ok = true
       ∧ (setup_news_rag parse env st).persisted = false
       ∧ (setup_news_rag parse env st).state.vector_index
           = some (VIndex.loaded vtag)
       ∧ (setup_news_rag parse env st).state.keyword_index
           = some (KIndex.loaded ktag)
       ∧ (setup_news_rag parse env st).state.nodes = some (parse docs)
       ∧ (setup_news_rag parse env st).state.hybrid_query_engine
           = some { vectorRetriever := VIndex.loaded vtag,
                    keywordRetriever := KIndex.loaded ktag,
                    bm25Nodes := parse docs })
  ∧ (∀ (e : String) (docs : List String),
       env.loadStorage = Except.error e →
       env.readDocs = Except.ok docs →
       (setup_news_rag parse env st).ok = true
       ∧ (setup_news_rag parse env st).persisted = true
       ∧ (setup_news_rag parse env st).state.vector_index
           = some (VIndex.builtFrom (parse docs))
       ∧ (setup_news_rag parse env st).state.keyword_index
           = some (KIndex.builtFrom (parse docs))
       ∧ (setup_news_rag parse env st).state.nodes = some (parse docs)
       ∧ (setup_news_rag parse env st).state.hybrid_query_engine
           = some { vectorRetriever := VIndex.builtFrom (parse docs),
                    keywordRetriever := KIndex.builtFrom (parse docs),
                    bm25Nodes := parse docs }) := by
  constructor
  · intro vtag ktag docs hload hdocs
    simp [setup_news_rag, hdir, hfiles, hload, hdocs, finishSetup]
  · intro e docs hload hdocs
    simp [setup_news_rag, hdir, hfiles, hload, hdocs, rebuildPath,
      finishSetup]

/-- C6 (witness): both setup paths evaluated on a concrete environment
with one `.txt` file. -/
theorem setup_two_path_state_machine_witness :
    ((setup_news_rag id
        { dirExists := true, files := ["a.txt"],
          loadStorage := Except.ok (1, 2), readDocs := Except.ok ["d"] }
        initialState).ok = true
     ∧ (setup_news_rag id
        { dirExists := true, files := ["a.txt"],
          loadStorage := Except.ok (1, 2), readDocs := Except.ok ["d"] }
        initialState).persisted = false)
  ∧ ((setup_news_rag id
        { dirExists := true, files := ["a.txt"],
          loadStorage := Except.error "gone", readDocs := Except.ok ["d"] }
        initialState).ok = true
     ∧ (setup_news_rag id
        { dirExists := true, files := ["a.txt"],
          loadStorage := Except.error "gone", readDocs := Except.ok ["d"] }
        initialState).persisted = true) :=
  ⟨⟨((setup_two_path_state_machine id _ initialState rfl (by decide)).1
        1 2 ["d"] rfl rfl).1,
    ((setup_two_path_state_machine id _ initialState rfl (by decide)).1
        1 2 ["d"] rfl rfl).2.1⟩,
   ⟨((setup_two_path_state_machine id _ initialState rfl (by decide)).2
        "gone" ["d"] rfl rfl).1,
    ((setup_two_path_state_machine id _ initialState rfl (by decide)).2
        "gone" ["d"] rfl rfl).2.1⟩⟩

/-- C7: with a non-empty history, the query submitted to the engine is the
augmented prompt holding exactly the last 4 turns (the most recent four,
chronological) as alternating user/assistant lines followed by the new
question; with an empty history the question is submitted verbatim; and
the string the answer function hands to its completion oracle is exactly
`contextPrompt`, observed here through an oracle that echoes its input. -/
theorem context_prompt_last_four :
    (∀ q : String, contextPrompt [] q = q)
  ∧ (∀ (hist : List Turn) (q : String), hist ≠ [] →
       contextPrompt hist q = specAugmentedQuery hist q)
  ∧ (∀ (engine : Engine) (hist : List Turn) (q : String),
       (search_documents_with_context (some engine)
           (fun s => Except.error s) hist q).1
         = "Error searching documents: " ++ contextPrompt hist q) := by
  refine ⟨fun _ => rfl, ?_, fun _ _ _ => rfl⟩
  intro hist q h
  have hne : hist.isEmpty = false := by
    cases hist with
    | nil => exact absurd rfl h
    | cons t ts => rfl
  have hd : hist.drop (hist.length - 4) = (hist.reverse.take 4).reverse :=
    List.rtake_eq_reverse_take_reverse hist 4
  simp [contextPrompt, specAugmentedQuery, hne, hd]

/-- C7 (witness): the augmented prompt evaluated on a concrete 5-turn
history agrees with the spec-side rendering of its last 4 turns. -/
theorem context_prompt_last_four_witness :
    contextPrompt
        [{ user := "q1", assistant := "a1" },
         { user := "q2", assistant := "a2" },
         { user := "q3", assistant := "a3" },
         { user := "q4", assistant := "a4" },
         { user := "q5", assistant := "a5" }] "now"
      = specAugmentedQuery
        [{ user := "q1", assistant := "a1" },
         { user := "q2", assistant := "a2" },
         { user := "q3", assistant := "a3" },
         { user := "q4", assistant := "a4" },
         { user := "q5", assistant := "a5" }] "now" :=
  context_prompt_last_four.2.1 _ "now" (by decide)

/-- C9: when the data directory does not exist or holds no `.txt` file,
setup returns `False`, persists nothing and leaves the module state — in
particular the engine — exactly as it found it: a terminal failure with no
partial index built. -/
theorem setup_empty_corpus_failure
    (parse : List String → List String) (env : SetupEnv) (st : RagState) :
    (env.dirExists = false →
       setup_news_rag parse env st
         = { ok := false, state := st, persisted := false })
  ∧ ((env.files.filter (fun f => endswith f ".txt")).isEmpty = true →
       setup_news_rag parse env st
         = { ok := false, state := st, persisted := false }) := by
  constructor
  · intro h
    simp [setup_news_rag, h]
  · intro h
    cases hd : env.dirExists <;> simp [setup_news_rag, hd, h]

/-- C9 (witness): a missing directory and a directory with no `.txt` file
evaluated concretely: setup fails and the fresh state is untouched. -/
theorem setup_empty_corpus_failure_witness :
    (setup_news_rag id
        { dirExists := false, files := ["a.txt"],
          loadStorage := Except.error "x", readDocs := Except.error "x" }
        initialState
      = { ok := false, state := initialState, persisted := false })
  ∧ (setup_news_rag id
        { dirExists := true, files := ["a.md"],
          loadStorage := Except.error "x", readDocs := Except.error "x" }
        initialState
      = { ok := false, state := initialState, persisted := false }) :=
  ⟨(setup_empty_corpus_failure id _ initialState).1 rfl,
   (setup_empty_corpus_failure id _ initialState).2 (by decide)⟩

/-- C10: calling the answer function while the engine is uninitialized
returns exactly the fixed sentinel string and leaves the conversation
history unchanged, whatever the completion oracle, history and question
are: no turn is recorded for the failed call. -/
theorem uninitialized_frame :
    ∀ (complete : String → Except String String) (hist : List Turn)
      (q : String),
      search_documents_with_context none complete hist q
        = ("RAG system not initialized. Please run setup_news_rag first.",
           hist) :=
  fun _ _ _ => rfl

end CurateX
